import Mathlib

/-!
Shallow embedding of the `improver` repository's two modules:

* `lib/improver/utilities/vertical.py` — the `VerticalIntegration` plugin;
* `lib/improver/ensemble_copula_coupling/ensemble_copula_coupling_utilities.py`
  — percentile generation, endpoint padding, bounds lookup, percentile-cube
  construction and dimension restoration.

Numeric values are modelled exactly as rationals (`ℚ`); numpy dtypes that
the code manipulates explicitly are modelled as tags with numpy's type
promotion; floating-point rounding is outside the model.  Cubes are modelled
with just the structure the functions touch: the coordinate being integrated
(with one data value per level, since all horizontal arithmetic is
pointwise), or shape plus coordinate lists for the copula-coupling helpers.
-/

/-! ## Vertical integration (`lib/improver/utilities/vertical.py`) -/

/-- Direction of integration.  The `VerticalIntegration` constructor rejects
any string other than `"upwards"` or `"downwards"`, so the valid states are
exactly these two. -/
inductive Direction
  | upwards
  | downwards
deriving DecidableEq

/-- A cube restricted to the structure `VerticalIntegration` touches: the
points of the coordinate being integrated, and one data value per level
(the arithmetic in `process` is pointwise over the remaining dimensions). -/
structure VCube where
  points : List ℚ
  data : List ℚ
deriving DecidableEq

/-- `cube.extract(iris.Constraint(coord_values={name: vals}))`: keep exactly
the levels whose coordinate point occurs in `vals`, in index order. -/
def VCube.extract (cube : VCube) (vals : List ℚ) : VCube :=
  let kept := (cube.points.zip cube.data).filter (fun p => decide (p.1 ∈ vals))
  ⟨kept.map Prod.fst, kept.map Prod.snd⟩

/-- `np.all(np.diff(points) > 0)`: every consecutive difference positive
(vacuously true for fewer than two points). -/
def increasingOrder (pts : List ℚ) : Bool :=
  (pts.zip pts.tail).all (fun p => decide (p.1 < p.2))

/-- The configured `VerticalIntegration` plugin.  The coordinate name is
implicit: the model carries a single (the integrated) coordinate.
`start_point`/`end_point` default to `None` in the source, modelled as
`Option ℚ`. -/
structure VerticalIntegration where
  start_point : Option ℚ
  end_point : Option ℚ
  direction_of_integration : Direction

/-- `VerticalIntegration.ensure_monotonic_in_chosen_direction`: reverse the
coordinate's points in place when the detected order does not match the
requested direction.  Only `coord.points` is touched; `cube.data` is not. -/
def VerticalIntegration.ensure_monotonic_in_chosen_direction
    (self : VerticalIntegration) (cube : VCube) : VCube :=
  if increasingOrder cube.points then
    match self.direction_of_integration with
    | .upwards => cube
    | .downwards => ⟨cube.points.reverse, cube.data⟩
  else
    match self.direction_of_integration with
    | .upwards => ⟨cube.points.reverse, cube.data⟩
    | .downwards => cube

/-- The guard of the integration body, lines 169–170 of `vertical.py`:
`(self.start_point and upper_depth < self.start_point) or
 (self.end_point and lower_depth > self.end_point)`.
Python truthiness: `None` and `0`/`0.0` are falsy, so a bound of `none` or
`some 0` disables its half of the test. -/
def includeLayer (start_point end_point : Option ℚ) (upper_depth lower_depth : ℚ) : Bool :=
  (match start_point with
   | none => false
   | some s => decide (s ≠ 0) && decide (upper_depth < s)) ||
  (match end_point with
   | none => false
   | some e => decide (e ≠ 0) && decide (lower_depth > e))

/-- The loop of `VerticalIntegration.process`: walk the upper and lower
slices in parallel carrying `layer_sum`; when the guard holds, add
`bottom_half_of_layer + top_half_of_layer` and write the running sum into
the output slice (`some`), otherwise leave it unwritten (`none`). -/
def integrationSteps (start_point end_point : Option ℚ) :
    List (ℚ × ℚ) → List (ℚ × ℚ) → ℚ → List (Option ℚ)
  | [], _, _ => []
  | _ :: _, [], _ => []
  | (up, uv) :: us, (lp, lv) :: ls, layer_sum =>
    if includeLayer start_point end_point up lp then
      let layer_depth := up - lp
      let top_half_of_layer := uv * (1/2) * layer_depth
      let bottom_half_of_layer := lv * (1/2) * layer_depth
      let s := layer_sum + (bottom_half_of_layer + top_half_of_layer)
      some s :: integrationSteps start_point end_point us ls s
    else
      none :: integrationSteps start_point end_point us ls layer_sum

/-- Apply the written slices to the copied lower-level data: a written slice
replaces the value, an unwritten one keeps the copied lower-level value. -/
def overwriteData : List ℚ → List (Option ℚ) → List ℚ
  | [], _ => []
  | v :: vs, [] => v :: vs
  | v :: vs, o :: os => o.getD v :: overwriteData vs os

/-- `VerticalIntegration.process`: build the upper- and lower-level sub-cubes
by coordinate-value extraction, normalise each with
`ensure_monotonic_in_chosen_direction`, copy the lower-level cube as the
output container, and run the integration loop. -/
def VerticalIntegration.process (self : VerticalIntegration) (cube : VCube) : VCube :=
  let upper_levels := cube.points.dropLast
  let lower_levels := cube.points.tail
  let upper_level_cube :=
    self.ensure_monotonic_in_chosen_direction (cube.extract upper_levels)
  let lower_level_cube :=
    self.ensure_monotonic_in_chosen_direction (cube.extract lower_levels)
  let steps := integrationSteps self.start_point self.end_point
    (upper_level_cube.points.zip upper_level_cube.data)
    (lower_level_cube.points.zip lower_level_cube.data) 0
  ⟨lower_level_cube.points, overwriteData lower_level_cube.data steps⟩

/-! ### Claims about vertical integration -/

theorem includeLayer_start_zero (e : Option ℚ) (u l : ℚ) :
    includeLayer (some 0) e u l = includeLayer none e u l := by
  simp [includeLayer]

theorem includeLayer_end_zero (s : Option ℚ) (u l : ℚ) :
    includeLayer s (some 0) u l = includeLayer s none u l := by
  simp [includeLayer]

theorem integrationSteps_start_zero (e : Option ℚ) (us ls : List (ℚ × ℚ)) (s : ℚ) :
    integrationSteps (some 0) e us ls s = integrationSteps none e us ls s := by
  induction us generalizing ls s with
  | nil => rfl
  | cons u us ih =>
    cases ls with
    | nil => rfl
    | cons l ls =>
      obtain ⟨up, uv⟩ := u
      obtain ⟨lp, lv⟩ := l
      rw [integrationSteps, integrationSteps, includeLayer_start_zero]
      split <;> simp [ih]

theorem integrationSteps_end_zero (s0 : Option ℚ) (us ls : List (ℚ × ℚ)) (s : ℚ) :
    integrationSteps s0 (some 0) us ls s = integrationSteps s0 none us ls s := by
  induction us generalizing ls s with
  | nil => rfl
  | cons u us ih =>
    cases ls with
    | nil => rfl
    | cons l ls =>
      obtain ⟨up, uv⟩ := u
      obtain ⟨lp, lv⟩ := l
      rw [integrationSteps, integrationSteps, includeLayer_end_zero]
      split <;> simp [ih]

/-- C1: with the monotonic coordinate [0,10,20,30], the value 1 at every
level, direction "upwards" and no start/end point, `process` returns the
copied lower-level data [1,1,1] unchanged — not the cumulative trapezoidal
sums [10,20,30] the specification states.  The guard on lines 169–170 of
`vertical.py` is the negation of the documented layer window, so with both
bounds unset no layer is ever integrated, contradicting the method's own
docstring ("the layers are cumulatively summed"). -/
theorem vertical_integration_defaults_pass_through :
    VerticalIntegration.process ⟨none, none, .upwards⟩ ⟨[0, 10, 20, 30], [1, 1, 1, 1]⟩
      = ⟨[10, 20, 30], [1, 1, 1]⟩ ∧ ([1, 1, 1] : List ℚ) ≠ [10, 20, 30] := by
  constructor
  · rfl
  · decide

/-- C9: `start_point`/`end_point` are tested for Python truthiness, so a
bound equal to 0 behaves exactly as if unset: `process` with a zero bound
equals `process` with that bound removed, for every cube. -/
theorem integration_zero_bound_behaves_as_unset (s e : Option ℚ) (d : Direction) (c : VCube) :
    VerticalIntegration.process ⟨some 0, e, d⟩ c = VerticalIntegration.process ⟨none, e, d⟩ c ∧
    VerticalIntegration.process ⟨s, some 0, d⟩ c = VerticalIntegration.process ⟨s, none, d⟩ c := by
  constructor
  · have hm : VerticalIntegration.ensure_monotonic_in_chosen_direction ⟨some 0, e, d⟩
        = VerticalIntegration.ensure_monotonic_in_chosen_direction ⟨none, e, d⟩ := rfl
    simp only [VerticalIntegration.process, hm, integrationSteps_start_zero]
  · have hm : VerticalIntegration.ensure_monotonic_in_chosen_direction ⟨s, some 0, d⟩
        = VerticalIntegration.ensure_monotonic_in_chosen_direction ⟨s, none, d⟩ := rfl
    simp only [VerticalIntegration.process, hm, integrationSteps_end_zero]

/-- C10: `ensure_monotonic_in_chosen_direction` never modifies the cube's
data array: whatever the detected order and requested direction, only the
coordinate points may be reversed; the returned data equals the input data
at every index. -/
theorem ensure_monotonic_preserves_data (self : VerticalIntegration) (cube : VCube) :
    (self.ensure_monotonic_in_chosen_direction cube).data = cube.data := by
  unfold VerticalIntegration.ensure_monotonic_in_chosen_direction
  cases h : increasingOrder cube.points <;>
    cases self.direction_of_integration <;> simp

/-! ## Endpoint padding
(`ensemble_copula_coupling_utilities.py`, `concatenate_2d_array_with_2d_array_endpoints`
and `insert_lower_and_upper_endpoint_to_1d_array`) -/

/-- The numpy dtypes that occur in these functions' inputs: platform integer
arrays, single-precision and double-precision float arrays. -/
inductive Dtype
  | int64
  | float32
  | float64
deriving DecidableEq

/-- numpy type promotion (`np.result_type`) restricted to the three dtypes
above: equal dtypes are kept, `float64` absorbs everything, and mixing
`int64` with `float32` promotes to `float64`. -/
def Dtype.promote : Dtype → Dtype → Dtype
  | .int64, .int64 => .int64
  | .float32, .float32 => .float32
  | _, _ => .float64

/-- A Python/numpy scalar: its value (exact, as a rational) together with the
dtype numpy infers for it (`float` literals give `float64`, `int` literals
give `int64`, `np.float32` scalars give `float32`). -/
structure PyScalar where
  dtype : Dtype
  val : ℚ
deriving DecidableEq

/-- A 1-d numpy array: dtype tag plus exact element values. -/
structure Array1d where
  dtype : Dtype
  data : List ℚ
deriving DecidableEq

/-- A 2-d numpy array: dtype tag plus rows of exact element values. -/
structure Array2d where
  dtype : Dtype
  rows : List (List ℚ)
deriving DecidableEq

/-- `insert_lower_and_upper_endpoint_to_1d_array`: build the one-element
arrays `np.array([low_endpoint])` and `np.array([high_endpoint])` (each with
the dtype numpy infers from the scalar — the input array's dtype is NOT
imposed) and concatenate; `np.concatenate` promotes the operand dtypes. -/
def insert_lower_and_upper_endpoint_to_1d_array
    (array_1d : Array1d) (low_endpoint high_endpoint : PyScalar) : Array1d :=
  let lower_array : Array1d := ⟨low_endpoint.dtype, [low_endpoint.val]⟩
  let upper_array : Array1d := ⟨high_endpoint.dtype, [high_endpoint.val]⟩
  ⟨(lower_array.dtype.promote array_1d.dtype).promote upper_array.dtype,
   lower_array.data ++ array_1d.data ++ upper_array.data⟩

/-- `concatenate_2d_array_with_2d_array_endpoints`: build one-column arrays
`np.full((rows, 1), endpoint, dtype=array_2d.dtype)` — here the input
array's dtype IS imposed — and concatenate along axis 1 (row-wise). -/
def concatenate_2d_array_with_2d_array_endpoints
    (array_2d : Array2d) (low_endpoint high_endpoint : PyScalar) : Array2d :=
  let lower_array : Array2d := ⟨array_2d.dtype, array_2d.rows.map (fun _ => [low_endpoint.val])⟩
  let upper_array : Array2d := ⟨array_2d.dtype, array_2d.rows.map (fun _ => [high_endpoint.val])⟩
  ⟨(lower_array.dtype.promote array_2d.dtype).promote upper_array.dtype,
   List.zipWith (· ++ ·) (List.zipWith (· ++ ·) lower_array.rows array_2d.rows)
     upper_array.rows⟩

/-! ### Claims about endpoint padding -/

theorem Dtype.promote_self : ∀ d : Dtype, d.promote d = d := by
  intro d; cases d <;> rfl

/-- C4 counterexample: the 1-D variant does not preserve the input dtype: a
`float32` array padded with `float64` endpoints (any plain Python floats)
comes back as `float64`. -/
theorem insert_endpoints_1d_promotes_dtype :
    ¬ (insert_lower_and_upper_endpoint_to_1d_array ⟨Dtype.float32, [1]⟩
        ⟨Dtype.float64, 0⟩ ⟨Dtype.float64, 2⟩).dtype = Dtype.float32 := by
  decide

/-- C4 amended: the 2-D variant always preserves the input array's dtype
(it forces `dtype=array_2d.dtype` on both endpoint columns); the 1-D variant
preserves it when both endpoint scalars already carry the array's dtype (in
general its result dtype is the numpy promotion of the endpoints' dtypes
with the array's). -/
theorem endpoint_padding_dtype (arr1 : Array1d) (arr2 : Array2d)
    (lo hi : PyScalar) :
    (concatenate_2d_array_with_2d_array_endpoints arr2 lo hi).dtype = arr2.dtype ∧
    (lo.dtype = arr1.dtype → hi.dtype = arr1.dtype →
      (insert_lower_and_upper_endpoint_to_1d_array arr1 lo hi).dtype = arr1.dtype) := by
  constructor
  · simp [concatenate_2d_array_with_2d_array_endpoints, Dtype.promote_self]
  · intro h1 h2
    simp [insert_lower_and_upper_endpoint_to_1d_array, h1, h2, Dtype.promote_self]

theorem endpoint_padding_dtype_witness :
    (PyScalar.dtype ⟨Dtype.float32, 0⟩ = Array1d.dtype ⟨Dtype.float32, [1]⟩) ∧
    (PyScalar.dtype ⟨Dtype.float32, 2⟩ = Array1d.dtype ⟨Dtype.float32, [1]⟩) ∧
    (concatenate_2d_array_with_2d_array_endpoints ⟨Dtype.int64, [[1]]⟩
        ⟨Dtype.float32, 0⟩ ⟨Dtype.float32, 2⟩).dtype = Dtype.int64 ∧
    (insert_lower_and_upper_endpoint_to_1d_array ⟨Dtype.float32, [1]⟩
        ⟨Dtype.float32, 0⟩ ⟨Dtype.float32, 2⟩).dtype = Dtype.float32 :=
  ⟨rfl, rfl,
   (endpoint_padding_dtype ⟨Dtype.float32, [1]⟩ ⟨Dtype.int64, [[1]]⟩
      ⟨Dtype.float32, 0⟩ ⟨Dtype.float32, 2⟩).1,
   (endpoint_padding_dtype ⟨Dtype.float32, [1]⟩ ⟨Dtype.int64, [[1]]⟩
      ⟨Dtype.float32, 0⟩ ⟨Dtype.float32, 2⟩).2 rfl rfl⟩

theorem zipWith_endpoint_rows (rows : List (List ℚ)) (x y : ℚ) :
    List.zipWith (· ++ ·)
      (List.zipWith (· ++ ·) (rows.map (fun _ => [x])) rows)
      (rows.map (fun _ => [y]))
      = rows.map (fun r => x :: (r ++ [y])) := by
  induction rows with
  | nil => rfl
  | cons r rows ih =>
    simp only [List.map_cons, List.zipWith_cons_cons, ih, List.singleton_append,
      List.cons_append, List.nil_append]

/-- C5: padding values and layout.  The 1-D variant maps `[a,b,c]` with
endpoints `lo`, `hi` to `[lo,a,b,c,hi]`; the 2-D variant prepends a column
of `lo` and appends a column of `hi` to every row independently, keeping the
row count and all existing values unchanged. -/
theorem endpoint_padding_values (dt : Dtype) (a b c : ℚ) (lo hi : PyScalar)
    (arr2 : Array2d) :
    (insert_lower_and_upper_endpoint_to_1d_array ⟨dt, [a, b, c]⟩ lo hi).data
      = [lo.val, a, b, c, hi.val] ∧
    (concatenate_2d_array_with_2d_array_endpoints arr2 lo hi).rows
      = arr2.rows.map (fun r => lo.val :: (r ++ [hi.val])) ∧
    (concatenate_2d_array_with_2d_array_endpoints arr2 lo hi).rows.length
      = arr2.rows.length := by
  refine ⟨rfl, ?_, ?_⟩
  · simp only [concatenate_2d_array_with_2d_array_endpoints]
    exact zipWith_endpoint_rows arr2.rows lo.val hi.val
  · simp only [concatenate_2d_array_with_2d_array_endpoints,
      zipWith_endpoint_rows arr2.rows lo.val hi.val, List.length_map]

/-! ## Percentile generation (`choose_set_of_percentiles`) -/

/-- `np.linspace(start, stop, num)` (endpoint=True), exact over ℚ: sample
`i` is `start + (stop - start) * i / (num - 1)`.  For `num = 1` numpy
returns `[start]`; the formula agrees because the numerator is `0` there. -/
def linspace (start stop : ℚ) (num : ℕ) : List ℚ :=
  (List.range num).map (fun i : ℕ => start + (stop - start) * (i : ℚ) / ((num : ℚ) - 1))

/-- `choose_set_of_percentiles`.  The `random` branch's `random.uniform`
draws are injected through the `draws` argument (the spec's design notes
call for exactly this randomness injection); `sorted` is Python's ascending
sort.  The unsupported-mode `ValueError` is the `Except.error` case. -/
def choose_set_of_percentiles (no_of_percentiles : ℕ) (sampling : String)
    (draws : List ℚ) : Except String (List ℚ) :=
  if sampling = "quantile" then
    Except.ok ((linspace (1 / (1 + (no_of_percentiles : ℚ)))
      ((no_of_percentiles : ℚ) / (1 + (no_of_percentiles : ℚ)))
      no_of_percentiles).map (fun item => item * 100))
  else if sampling = "random" then
    Except.ok ((draws.mergeSort (fun a b => decide (a ≤ b))).map (fun item => item * 100))
  else
    Except.error ("The " ++ sampling ++ " sampling option is not yet implemented.")

/-! ### Claims about percentile generation -/

theorem quantile_percentiles_closed_form (N : ℕ) (hN : 1 ≤ N) :
    (linspace (1 / (1 + (N : ℚ))) ((N : ℚ) / (1 + (N : ℚ))) N).map
        (fun item => item * 100)
      = (List.range N).map (fun i : ℕ => 100 * ((i : ℚ) + 1) / ((N : ℚ) + 1)) := by
  unfold linspace
  rw [List.map_map]
  apply List.map_congr_left
  intro i hi
  rw [List.mem_range] at hi
  by_cases h1 : N = 1
  · subst h1
    have : i = 0 := by omega
    subst this
    norm_num
  · have h2 : 2 ≤ N := by omega
    have ha : (0:ℚ) < 1 + (N : ℚ) := by positivity
    have hb : (N : ℚ) - 1 ≠ 0 := by
      have : (2:ℚ) ≤ (N : ℚ) := by exact_mod_cast h2
      linarith
    field_simp
    ring

theorem getD_range_map (g : ℕ → ℚ) (N i : ℕ) (h : i < N) :
    ((List.range N).map g).getD i 0 = g i := by
  simp [List.getD, h]

/-- The property C3 states of quantile-mode percentile generation at count
`N`: the call succeeds with exactly `N` values, the `i`-th (0-based) being
`100*(i+1)/(N+1)`, strictly increasing, all within the open interval
(0,100), symmetric about 50, with midpoint exactly 50 when `N` is odd. -/
def QuantileSpec (N : ℕ) : Prop :=
  ∃ ps : List ℚ,
    choose_set_of_percentiles N "quantile" [] = Except.ok ps ∧
    ps.length = N ∧
    (∀ i : ℕ, i < N → ps.getD i 0 = 100 * ((i : ℚ) + 1) / ((N : ℚ) + 1)) ∧
    (∀ i j : ℕ, i < j → j < N → ps.getD i 0 < ps.getD j 0) ∧
    (∀ x ∈ ps, 0 < x ∧ x < 100) ∧
    (∀ i : ℕ, i < N → ps.getD i 0 + ps.getD (N - 1 - i) 0 = 100) ∧
    (N % 2 = 1 → ps.getD (N / 2) 0 = 50)

/-- C3: for every `N ≥ 1`, `choose_set_of_percentiles` with
sampling="quantile" returns exactly `N` strictly increasing values, the
`i`-th equal to `100*i/(N+1)` (1-based), all in (0,100), symmetric about 50
with midpoint exactly 50 when `N` is odd. -/
theorem choose_quantile_percentiles_spec (N : ℕ) (hN : 1 ≤ N) : QuantileSpec N := by
  have hden : (0:ℚ) < (N : ℚ) + 1 := by positivity
  refine ⟨(List.range N).map (fun i : ℕ => 100 * ((i : ℚ) + 1) / ((N : ℚ) + 1)),
    ?_, ?_, ?_, ?_, ?_, ?_, ?_⟩
  · unfold choose_set_of_percentiles
    rw [if_pos rfl, quantile_percentiles_closed_form N hN]
  · simp
  · intro i hi
    rw [getD_range_map _ _ _ hi]
  · intro i j hij hj
    rw [getD_range_map _ _ _ (lt_trans hij hj), getD_range_map _ _ _ hj]
    have hnum : (100:ℚ) * ((i : ℚ) + 1) < 100 * ((j : ℚ) + 1) := by
      have : (i:ℚ) < (j:ℚ) := by exact_mod_cast hij
      linarith
    exact (div_lt_div_right hden).mpr hnum
  · intro x hx
    rw [List.mem_map] at hx
    obtain ⟨i, hi, rfl⟩ := hx
    rw [List.mem_range] at hi
    constructor
    · positivity
    · rw [div_lt_iff hden]
      have : (i:ℚ) + 1 ≤ (N:ℚ) := by exact_mod_cast hi
      linarith
  · intro i hi
    have hi2 : N - 1 - i < N := by omega
    rw [getD_range_map _ _ _ hi, getD_range_map _ _ _ hi2, div_add_div_same]
    have hcast : ((N - 1 - i : ℕ) : ℚ) = (N : ℚ) - 1 - (i : ℚ) := by
      rw [Nat.cast_sub (by omega : i ≤ N - 1), Nat.cast_sub hN]
      norm_num
    rw [hcast, div_eq_iff (ne_of_gt hden)]
    ring
  · intro hodd
    obtain ⟨k, hk⟩ : ∃ k, N = 2 * k + 1 := ⟨N / 2, by omega⟩
    subst hk
    have hidx : (2 * k + 1) / 2 = k := by omega
    rw [hidx, getD_range_map _ _ _ (by omega : k < 2 * k + 1)]
    have hk1 : ((2 * k + 1 : ℕ) : ℚ) = 2 * (k:ℚ) + 1 := by push_cast; ring
    rw [hk1, div_eq_iff (by positivity : 2 * (k:ℚ) + 1 + 1 ≠ 0)]
    ring

theorem choose_quantile_percentiles_spec_witness : 1 ≤ 3 ∧ QuantileSpec 3 :=
  ⟨by decide, choose_quantile_percentiles_spec 3 (by decide)⟩

/-- C8: every sampling mode other than "quantile" and "random" yields the
`ValueError` whose message names the unsupported mode ("The {mode} sampling
option is not yet implemented."). -/
theorem choose_set_of_percentiles_unknown_sampling (N : ℕ) (draws : List ℚ)
    (sampling : String) (hq : sampling ≠ "quantile") (hr : sampling ≠ "random") :
    choose_set_of_percentiles N sampling draws
      = Except.error ("The " ++ sampling ++ " sampling option is not yet implemented.") := by
  unfold choose_set_of_percentiles
  rw [if_neg hq, if_neg hr]

theorem choose_set_of_percentiles_unknown_sampling_witness :
    ("bogus" ≠ "quantile") ∧ ("bogus" ≠ "random") ∧
    choose_set_of_percentiles 2 "bogus" []
      = Except.error "The bogus sampling option is not yet implemented." := by
  refine ⟨by decide, by decide, ?_⟩
  rw [choose_set_of_percentiles_unknown_sampling 2 [] "bogus" (by decide) (by decide)]
  rfl

/-! ## Bounds-of-distribution lookup (`get_bounds_of_distribution`) -/

/-- Modelled from the spec: the `bounds_for_ecdf` constants module
(`ensemble_copula_coupling_constants`) is imported by the source file but is
not among the provided sources.  The spec describes it as "a constants table
mapping variable-name keys to (value-pair, unit) bounds definitions,
consulted read-only", each entry carrying a `value` pair and its native
`units`; the table itself is therefore left abstract (an arbitrary
association list), and the claims are proved for every such table. -/
structure BoundsEntry where
  value : ℚ × ℚ
  units : String

/-- The `KeyError` message built on lines 228–231: it interpolates the
offending key, the whole `bounds_for_ecdf` dictionary (rendered here by its
full key set) and the original `KeyError` (whose text is the key again). -/
def boundsKeyErrorMessage (bounds_pairing_key : String)
    (bounds_for_ecdf : List (String × BoundsEntry)) : String :=
  "The bounds_pairing_key: " ++ bounds_pairing_key ++
    " is not recognised within bounds_for_ecdf " ++
    String.intercalate ", " (bounds_for_ecdf.map Prod.fst) ++
    ". Error: " ++ bounds_pairing_key

/-- `get_bounds_of_distribution`, parameterised by the (spec-modelled)
constants table and by the unit library's conversion function
`convert from-unit to-unit value` (applied elementwise to the pair, as
`bounds_pairing_units.convert(np.array(bounds_pairing), desired_units)`
is).  The `except KeyError` branch is the `Except.error` case. -/
def get_bounds_of_distribution (bounds_for_ecdf : List (String × BoundsEntry))
    (convert : String → String → ℚ → ℚ)
    (bounds_pairing_key : String) (desired_units : String) : Except String (ℚ × ℚ) :=
  match bounds_for_ecdf.lookup bounds_pairing_key with
  | none => Except.error (boundsKeyErrorMessage bounds_pairing_key bounds_for_ecdf)
  | some entry =>
    Except.ok (convert entry.units desired_units entry.value.1,
               convert entry.units desired_units entry.value.2)

/-! ### Claim about the bounds lookup -/

/-- C6: `get_bounds_of_distribution` errors if and only if the key is absent
from the `bounds_for_ecdf` table; the error message names the offending key
and the full set of valid keys (`boundsKeyErrorMessage` interpolates both);
for a present key it returns the stored (low, high) pair with each component
converted from its native unit to the desired unit. -/
theorem get_bounds_of_distribution_spec (bounds_for_ecdf : List (String × BoundsEntry))
    (convert : String → String → ℚ → ℚ) (key desired_units : String) :
    ((∃ msg, get_bounds_of_distribution bounds_for_ecdf convert key desired_units
        = Except.error msg) ↔ bounds_for_ecdf.lookup key = none) ∧
    (bounds_for_ecdf.lookup key = none →
      get_bounds_of_distribution bounds_for_ecdf convert key desired_units
        = Except.error (boundsKeyErrorMessage key bounds_for_ecdf)) ∧
    (∀ entry, bounds_for_ecdf.lookup key = some entry →
      get_bounds_of_distribution bounds_for_ecdf convert key desired_units
        = Except.ok (convert entry.units desired_units entry.value.1,
                     convert entry.units desired_units entry.value.2)) := by
  refine ⟨⟨?_, ?_⟩, ?_, ?_⟩
  · intro ⟨msg, hmsg⟩
    cases h : bounds_for_ecdf.lookup key with
    | none => rfl
    | some entry =>
      rw [get_bounds_of_distribution, h] at hmsg
      exact absurd hmsg (by simp)
  · intro h
    exact ⟨boundsKeyErrorMessage key bounds_for_ecdf,
      by rw [get_bounds_of_distribution, h]⟩
  · intro h
    rw [get_bounds_of_distribution, h]
  · intro entry h
    rw [get_bounds_of_distribution, h]

theorem get_bounds_of_distribution_spec_witness :
    ([(("rainfall_rate" : String), (⟨(0, 1), "m s-1"⟩ : BoundsEntry))].lookup "bogus"
        = none) ∧
    get_bounds_of_distribution [("rainfall_rate", ⟨(0, 1), "m s-1"⟩)]
        (fun _ _ v => v) "bogus" "mm h-1"
      = Except.error (boundsKeyErrorMessage "bogus" [("rainfall_rate", ⟨(0, 1), "m s-1"⟩)]) :=
  ⟨rfl,
   (get_bounds_of_distribution_spec [("rainfall_rate", ⟨(0, 1), "m s-1"⟩)]
      (fun _ _ v => v) "bogus" "mm h-1").2.1 rfl⟩

/-! ## Percentile-cube construction (`create_cube_with_percentiles`) -/

/-- An n-dimensional numpy array: its shape and (row-major) flat values. -/
structure NdArray where
  shape : List ℕ
  data : List ℚ
deriving DecidableEq

/-- An iris coordinate as these functions use it: name, points, units and
var_name.  (`np.float32(percentiles)` is modelled value-exactly.) -/
structure CoordECC where
  name : String
  points : List ℚ
  units : String
  var_name : String
deriving DecidableEq

/-- The cube metadata tuple that `template_cube.metadata._asdict()` copies
into the `iris.cube.Cube` constructor, restricted to the parts the claims
touch: a name, the units, and the attribute dictionary. -/
structure Metadata where
  standard_name : String
  units : String
  attributes : List (String × String)
deriving DecidableEq

/-- An iris cube as the copula-coupling helpers use it: data array, metadata,
dimension coordinates with their dimension index, auxiliary and derived
coordinates with their dimension-index tuples. -/
structure IrisCube where
  data : NdArray
  metadata : Metadata
  dim_coords_list : List (CoordECC × ℕ)
  aux_coords_list : List (CoordECC × List ℕ)
  derived_coords_list : List (CoordECC × List ℕ)
deriving DecidableEq

/-- `cube.add_dim_coord(coord, dim)`. -/
def IrisCube.add_dim_coord (cube : IrisCube) (coord : CoordECC) (dim : ℕ) : IrisCube :=
  { cube with dim_coords_list := cube.dim_coords_list ++ [(coord, dim)] }

/-- `cube.add_aux_coord(coord, dims)`. -/
def IrisCube.add_aux_coord (cube : IrisCube) (coord : CoordECC) (dims : List ℕ) : IrisCube :=
  { cube with aux_coords_list := cube.aux_coords_list ++ [(coord, dims)] }

/-- `custom_name or 'percentile_over_realization'` — Python `or` falls back
on any falsy value, so both `None` and the empty string give the default. -/
def percentileCoordName (custom_name : Option String) : String :=
  match custom_name with
  | none => "percentile_over_realization"
  | some s => if s = "" then "percentile_over_realization" else s

/-- `create_cube_with_percentiles`: construct a cube from `cube_data` with
the template's metadata (units overridden when `cube_unit` is supplied), add
the percent-unit percentile coordinate at dimension 0, then re-add every
template dimension coordinate at its dimension + 1 and every auxiliary and
derived coordinate with each of its dimensions + 1 (derived coordinates are
re-added as auxiliary ones, as `add_aux_coord` does in the source). -/
def create_cube_with_percentiles (percentiles : List ℚ) (template_cube : IrisCube)
    (cube_data : NdArray) (custom_name cube_unit : Option String) : IrisCube :=
  let percentile_coord_name := percentileCoordName custom_name
  let percentile_coord : CoordECC :=
    ⟨percentile_coord_name, percentiles, "%", percentile_coord_name⟩
  let result : IrisCube := ⟨cube_data, template_cube.metadata, [], [], []⟩
  let result := match cube_unit with
    | some u => { result with metadata := { result.metadata with units := u } }
    | none => result
  let result := result.add_dim_coord percentile_coord 0
  let result := template_cube.dim_coords_list.foldl
    (fun r p => r.add_dim_coord p.1 (p.2 + 1)) result
  let result := template_cube.aux_coords_list.foldl
    (fun r p => r.add_aux_coord p.1 (p.2.map (fun d => d + 1))) result
  let result := template_cube.derived_coords_list.foldl
    (fun r p => r.add_aux_coord p.1 (p.2.map (fun d => d + 1))) result
  result

/-! ### Claim about cube construction -/

theorem foldl_add_dim_coord (l : List (CoordECC × ℕ)) (r : IrisCube) :
    l.foldl (fun r p => r.add_dim_coord p.1 (p.2 + 1)) r
      = { r with dim_coords_list :=
            r.dim_coords_list ++ l.map (fun p => (p.1, p.2 + 1)) } := by
  induction l generalizing r with
  | nil => simp
  | cons p l ih =>
    rw [List.foldl_cons, ih]
    simp [IrisCube.add_dim_coord]

theorem foldl_add_aux_coord (l : List (CoordECC × List ℕ)) (r : IrisCube) :
    l.foldl (fun r p => r.add_aux_coord p.1 (p.2.map (fun d => d + 1))) r
      = { r with aux_coords_list :=
            r.aux_coords_list ++ l.map (fun p => (p.1, p.2.map (fun d => d + 1))) } := by
  induction l generalizing r with
  | nil => simp
  | cons p l ih =>
    rw [List.foldl_cons, ih]
    simp [IrisCube.add_aux_coord]

/-- C7: the result of `create_cube_with_percentiles` holds `cube_data`
itself (so the (3,3)-template/(10,3,3)-data example yields output shape
(10,3,3), instantiated in the final conjunct); its dimension-coordinate list
starts with the percent-unit percentile coordinate carrying the given
percentile values at dimension 0, followed by every template dimension
coordinate unchanged in content with dimension index + 1; every template
auxiliary and derived coordinate is copied with its dimension indices + 1;
and the metadata is the template's, with units replaced when `cube_unit` is
supplied. -/
theorem create_cube_with_percentiles_spec (percentiles : List ℚ)
    (template_cube : IrisCube) (cube_data : NdArray)
    (custom_name cube_unit : Option String) :
    (create_cube_with_percentiles percentiles template_cube cube_data
        custom_name cube_unit).data = cube_data ∧
    (create_cube_with_percentiles percentiles template_cube cube_data
        custom_name cube_unit).dim_coords_list
      = (⟨percentileCoordName custom_name, percentiles, "%",
            percentileCoordName custom_name⟩, 0)
          :: template_cube.dim_coords_list.map (fun p => (p.1, p.2 + 1)) ∧
    (create_cube_with_percentiles percentiles template_cube cube_data
        custom_name cube_unit).aux_coords_list
      = (template_cube.aux_coords_list ++ template_cube.derived_coords_list).map
          (fun p => (p.1, p.2.map (fun d => d + 1))) ∧
    (create_cube_with_percentiles percentiles template_cube cube_data
        custom_name cube_unit).metadata
      = { template_cube.metadata with
            units := cube_unit.getD template_cube.metadata.units } ∧
    (create_cube_with_percentiles [5, 15, 25, 35, 45, 55, 65, 75, 85, 95]
        ⟨⟨[3, 3], List.replicate 9 0⟩, ⟨"air_temperature", "K", []⟩, [], [], []⟩
        ⟨[10, 3, 3], List.replicate 90 0⟩ none none).data.shape = [10, 3, 3] := by
  refine ⟨?_, ?_, ?_, ?_, rfl⟩ <;> cases cube_unit <;>
    (simp only [create_cube_with_percentiles]
     rw [foldl_add_dim_coord, foldl_add_aux_coord, foldl_add_aux_coord]
     simp [IrisCube.add_dim_coord, IrisCube.add_aux_coord])

/-! ## Dimension restoration (`restore_non_probabilistic_dimensions`) -/

/-- The two error kinds this function raises: `ValueError` (also the kind
numpy's reshape raises on a size mismatch) and iris's
`CoordinateNotFoundError`. -/
inductive EccError
  | valueError (msg : String)
  | coordinateNotFoundError (msg : String)
deriving DecidableEq

/-- numpy `array.reshape(shape)`: succeeds (keeping the row-major flat data)
iff the new shape's element count equals the array's; otherwise numpy raises
a `ValueError`. -/
def NdArray.reshape (a : NdArray) (shape : List ℕ) : Except String NdArray :=
  if shape.prod = a.data.length then Except.ok ⟨shape, a.data⟩
  else Except.error "cannot reshape array: total size of new array must be unchanged"

/-- `original_cube.coords(name, dim_coords=True)` nonempty, together with
`original_cube.coord_dims(name)[0]`: the dimension of the dimension
coordinate with this name, if any. -/
def IrisCube.findDimCoord (cube : IrisCube) (name : String) : Option ℕ :=
  (cube.dim_coords_list.find? (fun p => decide (p.1.name = name))).map Prod.snd

/-- `original_cube.coords(name, dim_coords=False)` nonempty: the name occurs
among the non-dimension (auxiliary or derived) coordinates. -/
def IrisCube.hasNonDimCoord (cube : IrisCube) (name : String) : Bool :=
  ((cube.aux_coords_list ++ cube.derived_coords_list).find?
    (fun p => decide (p.1.name = name))).isSome

/-- `restore_non_probabilistic_dimensions`.  The interpolated cube repr in
the two messages is elided; the messages keep the coordinate name. -/
def restore_non_probabilistic_dimensions (array_to_reshape : NdArray)
    (original_cube : IrisCube) (input_probabilistic_dimension_name : String)
    (output_probabilistic_dimension_length : ℕ) : Except EccError NdArray :=
  let shape_to_reshape_to := original_cube.data.shape
  match original_cube.findDimCoord input_probabilistic_dimension_name with
  | some d =>
    if d = 0 then
      (array_to_reshape.reshape
        (output_probabilistic_dimension_length :: shape_to_reshape_to.eraseIdx d)).mapError
        EccError.valueError
    else
      Except.error (EccError.valueError ("The " ++ input_probabilistic_dimension_name ++
        " coordinate is a dimension coordinate but is not the first dimension coordinate in the cube."))
  | none =>
    if original_cube.hasNonDimCoord input_probabilistic_dimension_name then
      (array_to_reshape.reshape
        (output_probabilistic_dimension_length :: shape_to_reshape_to)).mapError
        EccError.valueError
    else
      Except.error (EccError.coordinateNotFoundError
        ("A " ++ input_probabilistic_dimension_name ++
          " coordinate is not available on the cube."))

/-! ### Claims about dimension restoration -/

set_option maxRecDepth 4000 in
/-- C2 counterexample: the spec's concrete example is impossible: a (20,12)
array holds 240 elements, which cannot be reshaped to (7,4,3) = 84 elements;
with the probabilistic coordinate at dimension 0 of a (5,4,3) cube and
output length 7, the call raises numpy's size-mismatch `ValueError` instead
of returning an array of shape (7,4,3). -/
theorem restore_spec_example_size_mismatch :
    restore_non_probabilistic_dimensions ⟨[20, 12], List.replicate 240 0⟩
        ⟨⟨[5, 4, 3], List.replicate 60 0⟩, ⟨"air_temperature", "K", []⟩,
          [(⟨"realization", [0, 1, 2, 3, 4], "1", "realization"⟩, 0)], [], []⟩
        "realization" 7
      = Except.error (EccError.valueError
          "cannot reshape array: total size of new array must be unchanged") := by
  rfl

/-- C2 amended: when the named coordinate is the first dimension coordinate
and the flat array's element count matches, the result is the data reshaped
to [output length] ++ (original shape with dimension 0 removed) — this holds
for the spec's scenario once the flattened data has 7*4*3 elements, but not
for the stated (20,12) data, whose 240 elements mismatch and raise a
size-mismatch error; a dimension coordinate that is not first raises the
invalid-state `ValueError`; a coordinate present only as a non-dimension
coordinate keeps the full original shape with the new length prepended
(again when the element count matches); an absent coordinate raises
`CoordinateNotFoundError`. -/
theorem restore_non_probabilistic_dimensions_branches (arr : NdArray)
    (cube : IrisCube) (name : String) (outLen : ℕ) :
    (∀ d, cube.findDimCoord name = some d → d = 0 →
      (outLen :: cube.data.shape.eraseIdx 0).prod = arr.data.length →
      restore_non_probabilistic_dimensions arr cube name outLen
        = Except.ok ⟨outLen :: cube.data.shape.eraseIdx 0, arr.data⟩) ∧
    (∀ d, cube.findDimCoord name = some d → d ≠ 0 →
      restore_non_probabilistic_dimensions arr cube name outLen
        = Except.error (EccError.valueError ("The " ++ name ++
            " coordinate is a dimension coordinate but is not the first dimension coordinate in the cube."))) ∧
    (cube.findDimCoord name = none → cube.hasNonDimCoord name = true →
      (outLen :: cube.data.shape).prod = arr.data.length →
      restore_non_probabilistic_dimensions arr cube name outLen
        = Except.ok ⟨outLen :: cube.data.shape, arr.data⟩) ∧
    (cube.findDimCoord name = none → cube.hasNonDimCoord name = false →
      restore_non_probabilistic_dimensions arr cube name outLen
        = Except.error (EccError.coordinateNotFoundError ("A " ++ name ++
            " coordinate is not available on the cube."))) := by
  refine ⟨?_, ?_, ?_, ?_⟩
  · intro d hd hd0 hprod
    subst hd0
    have hprod2 : outLen * cube.data.shape.tail.prod = arr.data.length := by
      simpa using hprod
    simp [restore_non_probabilistic_dimensions, hd, NdArray.reshape, hprod2,
      Except.mapError]
  · intro d hd hdne
    simp only [restore_non_probabilistic_dimensions]
    rw [hd]
    simp [hdne]
  · intro h1 h2 hprod
    simp only [restore_non_probabilistic_dimensions]
    rw [h1]
    simp [h2, NdArray.reshape, hprod, Except.mapError]
  · intro h1 h2
    simp only [restore_non_probabilistic_dimensions]
    rw [h1]
    simp [h2]

theorem restore_non_probabilistic_dimensions_branches_witness :
    (IrisCube.findDimCoord
        ⟨⟨[5, 4, 3], List.replicate 60 0⟩, ⟨"air_temperature", "K", []⟩,
          [(⟨"realization", [0, 1, 2, 3, 4], "1", "realization"⟩, 0)], [], []⟩
        "realization" = some 0) ∧
    ((7 :: List.eraseIdx [5, 4, 3] 0).prod = (List.replicate 84 (0 : ℚ)).length) ∧
    restore_non_probabilistic_dimensions ⟨[7, 12], List.replicate 84 0⟩
        ⟨⟨[5, 4, 3], List.replicate 60 0⟩, ⟨"air_temperature", "K", []⟩,
          [(⟨"realization", [0, 1, 2, 3, 4], "1", "realization"⟩, 0)], [], []⟩
        "realization" 7
      = Except.ok ⟨[7, 4, 3], List.replicate 84 0⟩ :=
  ⟨rfl, by decide,
   (restore_non_probabilistic_dimensions_branches ⟨[7, 12], List.replicate 84 0⟩
      ⟨⟨[5, 4, 3], List.replicate 60 0⟩, ⟨"air_temperature", "K", []⟩,
        [(⟨"realization", [0, 1, 2, 3, 4], "1", "realization"⟩, 0)], [], []⟩
      "realization" 7).1 0 rfl rfl (by decide)⟩
